import Mathlib

/-!
Shallow embedding of the HomePlug-exporter protocol core
(src/homeplug_exporter.go) and proofs of the specification claims.

Bytes are modelled as natural numbers (the decoders only copy bytes, never
compute on them); byte buffers are lists of naturals.  Go functions that
return an error are modelled with an explicit result type; the Go runtime
panic raised by an out-of-bounds slice index is modelled as a distinct
outcome, since the source indexes some buffers without a bounds check.
-/

namespace Homeplug

/-- The one Go error value used by the decoders, io.ErrUnexpectedEOF
(a truncation error). -/
inductive HPError where
  | errUnexpectedEOF : HPError
deriving DecidableEq, Repr

/-- Result of a Go function that may return an error or hit a runtime
panic (out-of-range slice index). -/
inductive GoResult (α : Type) where
  | ok : α → GoResult α
  | err : HPError → GoResult α
  | panicked : GoResult α
deriving DecidableEq, Repr

/-- HomeplugFrame from homeplug_exporter.go lines 194-199: a 1-byte
version, a 2-byte MME type code in logical order, a 3-byte vendor id and
a variable-length payload. -/
structure HomeplugFrame where
  Version : Nat
  MMEType : Nat × Nat
  Vendor : Nat × Nat × Nat
  Payload : List Nat
deriving DecidableEq, Repr

/-- Wire constants from homeplug_exporter.go lines 33-36. -/
def hpVersion : Nat := 0x00

def nwInfoReq : Nat × Nat := (0xA0, 0x38)

def nwInfoCnf : Nat × Nat := (0xA0, 0x39)

def hpVendor : Nat × Nat × Nat := (0x00, 0xB0, 0x52)

/-- HomeplugFrame.length, line 218-220: the encoded size. -/
def HomeplugFrame.length (h : HomeplugFrame) : Nat := 6 + h.Payload.length

/-- Model of Go copy(b[i:], src) when it copies all of src: keeps the
first i bytes of b, writes src, keeps whatever of b lies past the copy. -/
def listCopyFrom (b : List Nat) (i : Nat) (src : List Nat) : List Nat :=
  b.take i ++ src.take (b.length - i) ++ b.drop (i + src.length)

/-- HomeplugFrame.read, lines 207-216: writes the six header bytes into
the buffer (note the swapped MME-type bytes at positions 1 and 2) and
copies the payload from position 6 on. -/
def HomeplugFrame.read (h : HomeplugFrame) (b : List Nat) : List Nat :=
  listCopyFrom
    ((((((b.set 0 h.Version).set 1 h.MMEType.2).set 2 h.MMEType.1).set 3
        h.Vendor.1).set 4 h.Vendor.2.1).set 5 h.Vendor.2.2)
    6 h.Payload

/-- HomeplugFrame.MarshalBinary, lines 201-205: allocates a zeroed buffer
of the encoded size and fills it with read.  The Go function's error
return is always nil, so the model is total. -/
def HomeplugFrame.marshalBinary (h : HomeplugFrame) : List Nat :=
  h.read (List.replicate h.length 0)

/-- HomeplugFrame.UnmarshalBinary, lines 222-238: fails on fewer than
6 bytes, otherwise reads the header (re-swapping the MME-type bytes back
to logical order) and copies the remainder as payload. -/
def HomeplugFrame.unmarshalBinary (b : List Nat) : Except HPError HomeplugFrame :=
  if b.length < 6 then
    .error .errUnexpectedEOF
  else
    .ok { Version := b.getD 0 0
          MMEType := (b.getD 2 0, b.getD 1 0)
          Vendor := (b.getD 3 0, b.getD 4 0, b.getD 5 0)
          Payload := b.drop 6 }

/-- HomeplugNetworkStatus, lines 152-159: one 17-byte network record. -/
structure HomeplugNetworkStatus where
  NetworkID : List Nat
  ShortID : Nat
  TEI : Nat
  Role : Nat
  CCoAddress : List Nat
  CCoTEI : Nat
deriving DecidableEq, Repr

/-- HomeplugNetworkStatus.UnmarshalBinary, lines 161-172: checks for at
least 17 bytes (truncation error otherwise), reads the fields, returns
the consumed size 17. -/
def HomeplugNetworkStatus.unmarshalBinary (b : List Nat) :
    GoResult (HomeplugNetworkStatus × Nat) :=
  if b.length < 17 then
    .err .errUnexpectedEOF
  else
    .ok ({ NetworkID := b.take 7
           ShortID := b.getD 7 0
           TEI := b.getD 8 0
           Role := b.getD 9 0
           CCoAddress := (b.drop 10).take 6
           CCoTEI := b.getD 16 0 }, 17)

/-- HomeplugStationStatus, lines 174-180: one 15-byte station record. -/
structure HomeplugStationStatus where
  Address : List Nat
  TEI : Nat
  BridgedAddress : List Nat
  TxRate : Nat
  RxRate : Nat
deriving DecidableEq, Repr

/-- HomeplugStationStatus.UnmarshalBinary, lines 182-192: checks for at
least 15 bytes (truncation error otherwise), reads the fields, returns
the consumed size 15. -/
def HomeplugStationStatus.unmarshalBinary (b : List Nat) :
    GoResult (HomeplugStationStatus × Nat) :=
  if b.length < 15 then
    .err .errUnexpectedEOF
  else
    .ok ({ Address := b.take 6
           TEI := b.getD 6 0
           BridgedAddress := (b.drop 7).take 6
           TxRate := b.getD 13 0
           RxRate := b.getD 14 0 }, 15)

/-- The network loop of HomeplugNetworkInfo.UnmarshalBinary, lines
127-135: decode the declared number of records, advancing by each
record's consumed size; the unconsumed suffix is returned. -/
def parseNetworks : Nat → List Nat → GoResult (List HomeplugNetworkStatus × List Nat)
  | 0, b => .ok ([], b)
  | Nat.succ i, b =>
    match HomeplugNetworkStatus.unmarshalBinary b with
    | .err e => .err e
    | .panicked => .panicked
    | .ok (ns, size) =>
      match parseNetworks i (b.drop size) with
      | .err e => .err e
      | .panicked => .panicked
      | .ok (l, rest) => .ok (ns :: l, rest)

/-- The station loop of HomeplugNetworkInfo.UnmarshalBinary, lines
139-147. -/
def parseStations : Nat → List Nat → GoResult (List HomeplugStationStatus × List Nat)
  | 0, b => .ok ([], b)
  | Nat.succ i, b =>
    match HomeplugStationStatus.unmarshalBinary b with
    | .err e => .err e
    | .panicked => .panicked
    | .ok (ss, size) =>
      match parseStations i (b.drop size) with
      | .err e => .err e
      | .panicked => .panicked
      | .ok (l, rest) => .ok (ss :: l, rest)

/-- HomeplugNetworkInfo, lines 117-120: the decoded result of one
confirm payload. -/
structure HomeplugNetworkInfo where
  Networks : List HomeplugNetworkStatus
  Stations : List HomeplugStationStatus
deriving DecidableEq, Repr

/-- HomeplugNetworkInfo.UnmarshalBinary, lines 122-150.  The two count
bytes are read by plain indexing with no bounds check (lines 125 and
137), so a buffer with no byte at the count position makes the Go code
panic with an index-out-of-range runtime error; that outcome is the
panicked constructor. -/
def HomeplugNetworkInfo.unmarshalBinary (b : List Nat) : GoResult HomeplugNetworkInfo :=
  match b with
  | [] => .panicked
  | c :: rest =>
    match parseNetworks c rest with
    | .err e => .err e
    | .panicked => .panicked
    | .ok (nets, rest2) =>
      match rest2 with
      | [] => .panicked
      | c2 :: rest3 =>
        match parseStations c2 rest3 with
        | .err e => .err e
        | .panicked => .panicked
        | .ok (stas, _) => .ok { Networks := nets, Stations := stas }

/-- The per-station rate computation of Exporter.collect, lines 107-112:
a station rate code (one byte) is converted with
uint64(code) * 1024 * 1024 / 8, every step in 64-bit unsigned integer
arithmetic (each product wraps modulo 2 to the 64). -/
def rateBytes (code : Nat) : Nat :=
  code * 1024 % 2 ^ 64 * 1024 % 2 ^ 64 / 8

/-- One result of conn.ReadFrom in read_homeplug, line 365: either the
1-second read deadline expired, the read failed some other way, or an
ethernet frame arrived whose decoded payload is the given bytes (the
ethernet envelope codec is an external library collaborator, so the
event carries its output). -/
inductive ReadEvent where
  | timeout : ReadEvent
  | readError : ReadEvent
  | packet : List Nat → ReadEvent
deriving DecidableEq, Repr

/-- read_homeplug, lines 360-388, as a function from the sequence of
read results to the frames forwarded on the channel: any read error
breaks the loop (lines 366-369, with no distinction between deadline
timeouts and other failures); a payload that fails HomeplugFrame decode
is skipped and the loop continues; a well-formed frame is forwarded. -/
def read_homeplug : List ReadEvent → List HomeplugFrame
  | [] => []
  | .timeout :: _ => []
  | .readError :: _ => []
  | .packet p :: rest =>
    match HomeplugFrame.unmarshalBinary p with
    | .error _ => read_homeplug rest
    | .ok h => h :: read_homeplug rest

/-- The per-frame body of the ChanLoop in get_homeplug_netinfo, lines
304-315: a frame whose MME type is not the confirm code is logged and
dropped; a confirm frame whose payload fails to decode is logged and
dropped; otherwise the decoded info is appended.  The none result is the
Go panic from HomeplugNetworkInfo decode aborting the process. -/
def handleFrame (ni : List HomeplugNetworkInfo) (h : HomeplugFrame) :
    Option (List HomeplugNetworkInfo) :=
  if h.MMEType = nwInfoCnf then
    match HomeplugNetworkInfo.unmarshalBinary h.Payload with
    | .ok n => some (ni ++ [n])
    | .err _ => some ni
    | .panicked => none
  else
    some ni

/-- One channel delivery in the ChanLoop select, lines 303-318: a frame
together with the time in milliseconds from the start of the select
iteration to its arrival. -/
structure Arrival where
  gap : Nat
  frame : HomeplugFrame
deriving DecidableEq, Repr

/-- The ChanLoop of get_homeplug_netinfo, lines 301-319: each iteration
selects between the channel and a fresh time.After of one second
(1000 ms).  An arrival within the second is handled and the loop
recurses; otherwise the timeout fires and the loop breaks.  Returns the
accumulated infos and the elapsed milliseconds, or none for a Go panic. -/
def chanLoop : List Arrival → List HomeplugNetworkInfo →
    Option (List HomeplugNetworkInfo × Nat)
  | [], ni => some (ni, 1000)
  | a :: rest, ni =>
    if a.gap < 1000 then
      match handleFrame ni a.frame with
      | none => none
      | some ni2 =>
        match chanLoop rest ni2 with
        | none => none
        | some (r, t) => some (r, a.gap + t)
    else
      some (ni, 1000)

/-- Sequential frame handling with no clock: the fold of handleFrame
over the arrivals, used to state which records the loop accumulates. -/
def processFrames : List Arrival → List HomeplugNetworkInfo →
    Option (List HomeplugNetworkInfo)
  | [], ni => some ni
  | a :: rest, ni =>
    match handleFrame ni a.frame with
    | none => none
    | some ni2 => processFrames rest ni2

/-- Total time to the arrival of the last frame of a trace, measured in
milliseconds from the start of the ChanLoop. -/
def sumGaps (t : List Arrival) : Nat := (t.map Arrival.gap).sum

/-- Outcome of one collection cycle of get_homeplug_netinfo, lines
291-322: the aggregated infos with the loop's elapsed milliseconds, the
propagated write failure, or a Go panic. -/
inductive CycleResult where
  | ok : List HomeplugNetworkInfo → Nat → CycleResult
  | writeFailed : String → CycleResult
  | panicked : CycleResult
deriving DecidableEq, Repr

/-- get_homeplug_netinfo, lines 291-322, over the outcome of
write_homeplug and the trace of channel deliveries: a write failure is
wrapped and returned at once (lines 296-299) before any frame is
consumed; otherwise the ChanLoop runs to its idle timeout. -/
def get_homeplug_netinfo (writeErr : Option String) (trace : List Arrival) :
    CycleResult :=
  match writeErr with
  | some e => .writeFailed ("write_homeplug failed: " ++ e)
  | none =>
    match chanLoop trace [] with
    | none => .panicked
    | some (r, t) => .ok r t

/-- The encoded frame laid out explicitly: header bytes then payload. -/
theorem HomeplugFrame.marshalBinary_eq (h : HomeplugFrame) :
    h.marshalBinary =
      h.Version :: h.MMEType.2 :: h.MMEType.1 ::
        h.Vendor.1 :: h.Vendor.2.1 :: h.Vendor.2.2 :: h.Payload := by
  have hrep : List.replicate h.length 0 =
      0 :: 0 :: 0 :: 0 :: 0 :: 0 :: List.replicate h.Payload.length (0 : Nat) := by
    have : h.length = 6 + h.Payload.length := rfl
    rw [this, List.replicate_add]
    rfl
  unfold HomeplugFrame.marshalBinary HomeplugFrame.read
  rw [hrep]
  show listCopyFrom
      (h.Version :: h.MMEType.2 :: h.MMEType.1 :: h.Vendor.1 :: h.Vendor.2.1 ::
        h.Vendor.2.2 :: List.replicate h.Payload.length 0) 6 h.Payload = _
  unfold listCopyFrom
  simp [List.take_succ_cons, List.drop_succ_cons]
  omega

/-- Claim C3: decoding the encoding of any frame, whatever its version
byte, message-type bytes, vendor bytes and payload, returns the frame
unchanged. -/
theorem frame_roundtrip (h : HomeplugFrame) :
    HomeplugFrame.unmarshalBinary h.marshalBinary = .ok h := by
  cases h with
  | mk v m vend p =>
    rw [HomeplugFrame.marshalBinary_eq]
    simp [HomeplugFrame.unmarshalBinary]

/-- Claim C4: encoding produces exactly 6 + payload-length bytes, laid
out as version, swapped message-type bytes, vendor id, then the payload
verbatim; and on the concrete request code 0xA038 the wire bytes at
positions 1-2 are 0x38, 0xA0, which decode back to the logical pair
(0xA0, 0x38). -/
theorem frame_marshal_layout (h : HomeplugFrame) :
    h.marshalBinary.length = 6 + h.Payload.length ∧
    h.marshalBinary.getD 0 0 = h.Version ∧
    h.marshalBinary.getD 1 0 = h.MMEType.2 ∧
    h.marshalBinary.getD 2 0 = h.MMEType.1 ∧
    h.marshalBinary.getD 3 0 = h.Vendor.1 ∧
    h.marshalBinary.getD 4 0 = h.Vendor.2.1 ∧
    h.marshalBinary.getD 5 0 = h.Vendor.2.2 ∧
    h.marshalBinary.drop 6 = h.Payload ∧
    (HomeplugFrame.marshalBinary
        { Version := hpVersion, MMEType := nwInfoReq, Vendor := hpVendor,
          Payload := [] }).getD 1 0 = 0x38 ∧
    (HomeplugFrame.marshalBinary
        { Version := hpVersion, MMEType := nwInfoReq, Vendor := hpVendor,
          Payload := [] }).getD 2 0 = 0xA0 ∧
    HomeplugFrame.unmarshalBinary [0x00, 0x38, 0xA0, 0x00, 0xB0, 0x52] =
      .ok { Version := 0x00, MMEType := nwInfoReq, Vendor := hpVendor,
            Payload := [] } := by
  rw [HomeplugFrame.marshalBinary_eq]
  refine ⟨by simp; omega, rfl, rfl, rfl, rfl, rfl, rfl, rfl, by decide, by decide, rfl⟩

/-- Claim C5: frame decode fails with the truncation error on every
buffer of fewer than 6 bytes, and succeeds on every buffer of 6 or more
bytes. -/
theorem frame_unmarshal_length (b : List Nat) :
    (b.length < 6 →
      HomeplugFrame.unmarshalBinary b = .error .errUnexpectedEOF) ∧
    (6 ≤ b.length →
      ∃ f, HomeplugFrame.unmarshalBinary b = .ok f) := by
  constructor
  · intro hb
    simp [HomeplugFrame.unmarshalBinary, hb]
  · intro hb
    unfold HomeplugFrame.unmarshalBinary
    rw [if_neg (by omega)]
    exact ⟨_, rfl⟩

/-- Witness for C5 at the concrete buffers [7] (short) and
[0, 0x39, 0xA0, 0, 0xB0, 0x52] (exactly 6 bytes). -/
theorem frame_unmarshal_length_witness :
    HomeplugFrame.unmarshalBinary [7] = .error .errUnexpectedEOF ∧
    ∃ f, HomeplugFrame.unmarshalBinary [0, 0x39, 0xA0, 0, 0xB0, 0x52] = .ok f :=
  ⟨(frame_unmarshal_length [7]).1 (by decide),
   (frame_unmarshal_length [0, 0x39, 0xA0, 0, 0xB0, 0x52]).2 (by decide)⟩

/-- Claim C1 (code bug): network-info decode is supposed to fail with a
truncation error on every too-short buffer, but the two count bytes are
read without a bounds check: the empty buffer and a buffer that ends
right after its network records make the Go code panic with an
index-out-of-range error instead.  Only the fixed-size records
themselves are guarded by truncation checks, as the third conjunct
shows. -/
theorem netinfo_count_byte_panics :
    HomeplugNetworkInfo.unmarshalBinary [] = .panicked ∧
    HomeplugNetworkInfo.unmarshalBinary (1 :: List.replicate 17 0) = .panicked ∧
    HomeplugNetworkInfo.unmarshalBinary [1] = .err .errUnexpectedEOF := by
  decide

/-- Claim C2 counterexample: a read that hits the 1-second deadline is
not retried — it breaks the receive loop, so a well-formed frame sitting
behind a timeout is never forwarded, while the same frame without the
timeout is. -/
theorem read_homeplug_timeout_not_retried :
    ¬ (read_homeplug
        [ReadEvent.timeout, ReadEvent.packet [0, 0x39, 0xA0, 0x00, 0xB0, 0x52]] =
       read_homeplug
        [ReadEvent.packet [0, 0x39, 0xA0, 0x00, 0xB0, 0x52]]) := by
  decide

/-- Claim C2 as amended: in read_homeplug every read failure terminates
the receive task for the cycle — the 1-second deadline timeout is not
distinguished from other read errors and is not retried. -/
theorem read_homeplug_any_error_stops (evs : List ReadEvent) :
    read_homeplug (ReadEvent.timeout :: evs) = [] ∧
    read_homeplug (ReadEvent.readError :: evs) = [] :=
  ⟨rfl, rfl⟩

/-- Claim C6: a confirm payload declaring 2 network records but holding
only one record's 17 bytes after the count byte decodes to the
truncation error, and handling such a confirm frame in the ChanLoop
leaves the accumulated result unchanged — it contributes zero network
and zero station records. -/
theorem truncated_confirm_contributes_nothing :
    HomeplugNetworkInfo.unmarshalBinary (2 :: List.replicate 17 0) =
      .err .errUnexpectedEOF ∧
    ∀ ni, handleFrame ni
        { Version := 0, MMEType := nwInfoCnf, Vendor := hpVendor,
          Payload := 2 :: List.replicate 17 0 } = some ni := by
  exact ⟨by decide, fun ni => rfl⟩

/-- Claim C7: when write_homeplug fails, get_homeplug_netinfo returns
the wrapped failure immediately, whatever frames would have arrived: no
waiting and no partial result. -/
theorem write_failure_aborts_cycle (e : String) (trace : List Arrival) :
    get_homeplug_netinfo (some e) trace =
      .writeFailed ("write_homeplug failed: " ++ e) := rfl

/-- Claim C8: for every byte-sized rate code the reported byte-rate is
exactly code * 1024 * 1024 / 8 = code * 131072, with no 64-bit overflow;
in particular codes 1, 100 and 50 give 131072, 13107200 and 6553600. -/
theorem rate_conversion (code : Nat) (hc : code ≤ 255) :
    rateBytes code = code * 1024 * 1024 / 8 ∧
    rateBytes code = code * 131072 ∧
    rateBytes 1 = 131072 ∧
    rateBytes 100 = 13107200 ∧
    rateBytes 50 = 6553600 := by
  have h1 : code * 1024 % 2 ^ 64 = code * 1024 :=
    Nat.mod_eq_of_lt (by omega)
  have h2 : code * 1024 * 1024 % 2 ^ 64 = code * 1024 * 1024 :=
    Nat.mod_eq_of_lt (by omega)
  have heq : rateBytes code = code * 1024 * 1024 / 8 := by
    unfold rateBytes
    rw [h1, h2]
  refine ⟨heq, ?_, by decide, by decide, by decide⟩
  rw [heq]
  have : code * 1024 * 1024 = code * 131072 * 8 := by ring
  rw [this, Nat.mul_div_cancel _ (by norm_num)]

/-- Witness for C8 at the concrete rate code 100. -/
theorem rate_conversion_witness :
    rateBytes 100 = 100 * 131072 :=
  (rate_conversion 100 (by decide)).2.1

/-- The network loop consumes exactly 17 bytes per declared record:
on a buffer holding 17 * n bytes of records followed by anything, it
succeeds with n records and returns the suffix untouched. -/
theorem parseNetworks_exact (n : Nat) :
    ∀ netsB rest : List Nat, netsB.length = 17 * n →
      ∃ l, parseNetworks n (netsB ++ rest) = .ok (l, rest) ∧ l.length = n := by
  induction n with
  | zero =>
    intro netsB rest h
    have hnil : netsB = [] := List.eq_nil_of_length_eq_zero (by omega)
    subst hnil
    exact ⟨[], rfl, rfl⟩
  | succ i ih =>
    intro netsB rest h
    have hlen : 17 ≤ netsB.length := by omega
    obtain ⟨R, hR⟩ : ∃ R, HomeplugNetworkStatus.unmarshalBinary (netsB ++ rest) =
        .ok (R, 17) := by
      unfold HomeplugNetworkStatus.unmarshalBinary
      rw [if_neg (by simp only [List.length_append]; omega)]
      exact ⟨_, rfl⟩
    have hdrop : (netsB ++ rest).drop 17 = netsB.drop 17 ++ rest := by
      rw [List.drop_append_eq_append_drop]
      have h0 : 17 - netsB.length = 0 := by omega
      rw [h0, List.drop_zero]
    obtain ⟨l, hl, hll⟩ := ih (netsB.drop 17) rest
      (by rw [List.length_drop]; omega)
    refine ⟨R :: l, ?_, by simp [hll]⟩
    simp only [parseNetworks, hR, hdrop, hl]

/-- The station loop consumes exactly 15 bytes per declared record:
on a buffer holding 15 * m bytes of records followed by anything, it
succeeds with m records and returns the suffix untouched. -/
theorem parseStations_exact (m : Nat) :
    ∀ staB rest : List Nat, staB.length = 15 * m →
      ∃ l, parseStations m (staB ++ rest) = .ok (l, rest) ∧ l.length = m := by
  induction m with
  | zero =>
    intro staB rest h
    have hnil : staB = [] := List.eq_nil_of_length_eq_zero (by omega)
    subst hnil
    exact ⟨[], rfl, rfl⟩
  | succ i ih =>
    intro staB rest h
    have hlen : 15 ≤ staB.length := by omega
    obtain ⟨R, hR⟩ : ∃ R, HomeplugStationStatus.unmarshalBinary (staB ++ rest) =
        .ok (R, 15) := by
      unfold HomeplugStationStatus.unmarshalBinary
      rw [if_neg (by simp only [List.length_append]; omega)]
      exact ⟨_, rfl⟩
    have hdrop : (staB ++ rest).drop 15 = staB.drop 15 ++ rest := by
      rw [List.drop_append_eq_append_drop]
      have h0 : 15 - staB.length = 0 := by omega
      rw [h0, List.drop_zero]
    obtain ⟨l, hl, hll⟩ := ih (staB.drop 15) rest
      (by rw [List.length_drop]; omega)
    refine ⟨R :: l, ?_, by simp [hll]⟩
    simp only [parseStations, hR, hdrop, hl]

/-- Claim C10: on a buffer whose counts and record bytes are consistent,
network-info decode succeeds with exactly the declared numbers of
network and station records, whatever trailing bytes follow the last
station record — the remainder is never inspected or rejected. -/
theorem netinfo_ignores_trailing_bytes (n m : Nat) (netsB staB extra : List Nat)
    (_hn : n ≤ 255) (_hm : m ≤ 255)
    (hnets : netsB.length = 17 * n) (hsta : staB.length = 15 * m) :
    ∃ r, HomeplugNetworkInfo.unmarshalBinary
        (n :: (netsB ++ m :: (staB ++ extra))) = .ok r ∧
      r.Networks.length = n ∧ r.Stations.length = m := by
  obtain ⟨l, hl, hll⟩ := parseNetworks_exact n netsB (m :: (staB ++ extra)) hnets
  obtain ⟨l2, hl2, hll2⟩ := parseStations_exact m staB extra hsta
  refine ⟨{ Networks := l, Stations := l2 }, ?_, hll, hll2⟩
  simp only [HomeplugNetworkInfo.unmarshalBinary, hl, hl2]

/-- Witness for C10: one all-zero network record, one all-zero station
record, and the trailing junk bytes [9, 9]. -/
theorem netinfo_ignores_trailing_bytes_witness :
    ∃ r, HomeplugNetworkInfo.unmarshalBinary
        (1 :: (List.replicate 17 0 ++ 1 :: (List.replicate 15 0 ++ [9, 9]))) =
        .ok r ∧
      r.Networks.length = 1 ∧ r.Stations.length = 1 :=
  netinfo_ignores_trailing_bytes 1 1 (List.replicate 17 0) (List.replicate 15 0)
    [9, 9] (by decide) (by decide) (by decide) (by decide)

/-- Each iteration of the ChanLoop restarts a fresh 1000 ms budget: as
long as every arrival lands inside its budget the loop keeps folding
handleFrame, and the first idle second ends the loop 1000 ms after the
last handled arrival. -/
theorem chanLoop_idle (t1 : List Arrival) :
    ∀ ni r, (∀ a ∈ t1, a.gap < 1000) → processFrames t1 ni = some r →
      ∀ b t2, 1000 ≤ b.gap →
        chanLoop (t1 ++ b :: t2) ni = some (r, sumGaps t1 + 1000) := by
  induction t1 with
  | nil =>
    intro ni r hfast hpf b t2 hb
    have hr : ni = r := by simpa [processFrames] using hpf
    subst hr
    simp [chanLoop, sumGaps, Nat.not_lt.mpr hb]
  | cons a rest ih =>
    intro ni r hfast hpf b t2 hb
    have hga : a.gap < 1000 := hfast a (by simp)
    cases hh : handleFrame ni a.frame with
    | none => simp [processFrames, hh] at hpf
    | some ni2 =>
      have hpf2 : processFrames rest ni2 = some r := by
        simpa [processFrames, hh] using hpf
      have hrec := ih ni2 r (fun x hx => hfast x (by simp [hx])) hpf2 b t2 hb
      have harith : a.gap + (sumGaps rest + 1000) = sumGaps (a :: rest) + 1000 := by
        simp only [sumGaps, List.map_cons, List.sum_cons]
        omega
      simp only [List.cons_append, chanLoop, if_pos hga, hh, List.append_eq, hrec]
      rw [harith]

/-- Claim C9: collection uses an idle timeout.  For any trace whose
first over-budget gap comes after the arrivals of t1, the cycle handles
exactly the frames of t1 — however many and however spaced below one
second — and returns when 1000 ms elapse after the last of them, never
seeing the later arrivals. -/
theorem idle_timeout_collection (t1 : List Arrival) (b : Arrival)
    (t2 : List Arrival) (r : List HomeplugNetworkInfo)
    (hfast : ∀ a ∈ t1, a.gap < 1000) (hidle : 1000 ≤ b.gap)
    (hpf : processFrames t1 [] = some r) :
    get_homeplug_netinfo none (t1 ++ b :: t2) =
      .ok r (sumGaps t1 + 1000) := by
  have h := chanLoop_idle t1 [] r hfast hpf b t2 hidle
  simp [get_homeplug_netinfo, h]

/-- Witness for C9: two confirm frames 500 ms and 900 ms apart, then a
quiet period; the cycle returns both decoded infos 1000 ms after the
second frame, ignoring a frame that arrives after the idle second. -/
theorem idle_timeout_collection_witness :
    get_homeplug_netinfo none
      [⟨500, { Version := 0, MMEType := nwInfoCnf, Vendor := hpVendor,
               Payload := [0, 0] }⟩,
       ⟨900, { Version := 0, MMEType := nwInfoCnf, Vendor := hpVendor,
               Payload := [0, 0] }⟩,
       ⟨1000, { Version := 0, MMEType := nwInfoCnf, Vendor := hpVendor,
                Payload := [0, 0] }⟩] =
      .ok [{ Networks := [], Stations := [] },
           { Networks := [], Stations := [] }]
        (sumGaps [⟨500, { Version := 0, MMEType := nwInfoCnf, Vendor := hpVendor,
                          Payload := [0, 0] }⟩,
                  ⟨900, { Version := 0, MMEType := nwInfoCnf, Vendor := hpVendor,
                          Payload := [0, 0] }⟩] + 1000) :=
  idle_timeout_collection
    [⟨500, { Version := 0, MMEType := nwInfoCnf, Vendor := hpVendor,
             Payload := [0, 0] }⟩,
     ⟨900, { Version := 0, MMEType := nwInfoCnf, Vendor := hpVendor,
             Payload := [0, 0] }⟩]
    ⟨1000, { Version := 0, MMEType := nwInfoCnf, Vendor := hpVendor,
             Payload := [0, 0] }⟩
    []
    [{ Networks := [], Stations := [] }, { Networks := [], Stations := [] }]
    (by decide) (by decide) (by decide)

end Homeplug
